import Mathlib

/-!
Shallow embedding of `src/include/vdbfusion_ros/VDBVolume_ros.hpp`
(the `vdbfusion::VDBVolumeNode` ROS node: scan ingestion, range
pre-processing, and the save/publish export pipeline), together with
theorems settling the specification claims about it.

Doubles are modelled as rationals, timestamps as integers (nanoseconds),
and the external collaborators (tf transform buffer, tf2 point-cloud
transform, the vdbfusion TSDF engine, openvdb and igl file writers) as an
`Externals` record of opaque function parameters, since their code is not
part of this repository.
-/

namespace VdbfusionRos

/-- A 3-D point (`Eigen::Vector3d` / `geometry_msgs::Point`); double
coordinates modelled as rationals. -/
structure Point3 where
  x : ℚ
  y : ℚ
  z : ℚ
deriving DecidableEq, Repr

/-- `geometry_msgs::TransformStamped` as consumed by the node: the pipeline
reads only `transform.translation` (the origin) and hands the whole
transform to the external `tf2::doTransform`; the rotation quaternion is
carried opaquely. -/
structure TransformStamped where
  translation : Point3
  rotation : ℚ × ℚ × ℚ × ℚ
deriving DecidableEq, Repr

/-- `sensor_msgs::PointCloud2` as far as the node consumes it: a capture
timestamp (`header.stamp`, nanoseconds), frame metadata, and the point
payload. -/
structure PointCloud2 where
  stamp : ℤ
  frame_id : String
  points : List Point3
deriving DecidableEq, Repr

/-- A default-constructed `sensor_msgs::PointCloud2` (as `pcd_out` is in
`VDBVolumeNode::Integrate` before any write to it): zero width, no data,
hence no points. -/
def PointCloud2.default : PointCloud2 :=
  { stamp := 0, frame_id := "", points := [] }

/-- The pair returned by the external `VDBVolume::ExtractTriangleMesh`:
an ordered vertex list and an ordered list of triangle index triples. -/
structure Mesh where
  vertices : List Point3
  triangles : List (ℕ × ℕ × ℕ)
deriving DecidableEq, Repr

/-- The node's configuration surface, read once in the constructor via
`nh_.getParam` (floats as rationals, the timestamp tolerance as integer
nanoseconds). -/
structure Config where
  voxel_size : ℚ
  sdf_trunc : ℚ
  space_carving : Bool
  pcl_topic : String
  preprocess : Bool
  apply_pose : Bool
  min_range : ℚ
  max_range : ℚ
  fill_holes : Bool
  min_weight : ℚ
  save_publish_wait_time : ℚ
  save_path : String
  timestamp_tolerance_ns : ℤ
deriving DecidableEq, Repr

/-- The external collaborators of the node, opaque to this repository and
therefore parameters of the model:

* `lookUpTransform` — `Transform::lookUpTransform(stamp, tolerance, out)`,
  returning a pose only when one is available within the tolerance
  (`none` models the `false` return);
* `doTransform` — `tf2::doTransform`, re-expressing a cloud by a rigid
  transform;
* `norm` — `Eigen::Vector3d::norm()`, the Euclidean norm of a point
  (an external floating-point computation, abstracted as a function);
* `initVolume` — the `VDBVolume(voxel_size, sdf_trunc, space_carving)`
  constructor;
* `integrate` — `VDBVolume::Integrate(points, origin, weight_fn)`, the
  stateful fusion sink;
* `extractTriangleMesh` — Modelled from the spec: the external
  marching-cubes extraction `VDBVolume::ExtractTriangleMesh(fill_holes,
  min_weight)` is not in this repository; per the spec the export
  pipeline only reads a snapshot of the volume, so extraction is
  modelled as a pure function of the volume state and its two
  parameters. -/
structure Externals (V : Type) where
  lookUpTransform : ℤ → ℤ → Option TransformStamped
  doTransform : PointCloud2 → TransformStamped → PointCloud2
  norm : Point3 → ℚ
  initVolume : ℚ → ℚ → Bool → V
  integrate : V → List Point3 → Point3 → (ℚ → ℚ) → V
  extractTriangleMesh : V → Bool → ℚ → Mesh

/-- `pcl2SensorMsgToEigen` (anonymous namespace): converts the message
payload to the `Eigen::Vector3d` representation, point for point in
order. -/
def pcl2SensorMsgToEigen (pcl2 : PointCloud2) : List Point3 :=
  pcl2.points

/-- `PreProcessCloud` (anonymous namespace): two successive
`erase(remove_if ...)` culls — first every point with `p.norm() >
max_range` is removed, then every point with `p.norm() < min_range`.
`erase(remove_if pred)` keeps, in order, exactly the elements not
satisfying `pred`, i.e. it is `List.filter (fun p => !pred p)`. The norm
function is a parameter (see `Externals.norm`). -/
def PreProcessCloud (norm : Point3 → ℚ) (points : List Point3)
    (min_range max_range : ℚ) : List Point3 :=
  let erased1 := points.filter (fun p => !decide (norm p > max_range))
  erased1.filter (fun p => !decide (norm p < min_range))

/-- Result of one `VDBVolumeNode::Integrate` callback: the volume
afterwards, and the argument pair `(scan, origin)` of the
`vdb_volume_.Integrate` call when one was made (`none` when the scan was
dropped). -/
structure IntegrateResult (V : Type) where
  vol : V
  call : Option (List Point3 × Point3)

namespace VDBVolumeNode

/-- `VDBVolumeNode::Integrate(pcd)`: look up a transform for the scan's
stamp within the configured tolerance; on failure do nothing. On success,
`pcd_out` (default-constructed) receives `tf2::doTransform(pcd, ...)` only
when `apply_pose_` is set; the scan is converted from `pcd_out`,
optionally range-filtered, and integrated with the pose translation as
origin and the constant weight function `1.0`. -/
def Integrate {V : Type} (ext : Externals V) (cfg : Config) (vol : V)
    (pcd : PointCloud2) : IntegrateResult V :=
  match ext.lookUpTransform pcd.stamp cfg.timestamp_tolerance_ns with
  | none => { vol := vol, call := none }
  | some transform =>
      let pcd_out : PointCloud2 :=
        if cfg.apply_pose then ext.doTransform pcd transform
        else PointCloud2.default
      let scan0 := pcl2SensorMsgToEigen pcd_out
      let scan :=
        if cfg.preprocess then
          PreProcessCloud ext.norm scan0 cfg.min_range cfg.max_range
        else scan0
      let origin := transform.translation
      { vol := ext.integrate vol scan origin (fun _ => 1),
        call := some (scan, origin) }

end VDBVolumeNode

/-- The kind of a persisted artifact: the openvdb grid file or the mesh
file. -/
inductive FileKind where
  | grid
  | meshFile
deriving DecidableEq, Repr

/-- One file-write side effect of `saveVDBVolume`, in program order. -/
structure FileWrite where
  name : String
  kind : FileKind
deriving DecidableEq, Repr

/-- `mesh_msgs::MeshGeometryStamped` as populated by `saveVDBVolume`:
identifier, header frame label and stamp, vertex list and triangle-index
list. -/
structure MeshGeometryStamped where
  uuid : String
  frame_id : String
  stamp : ℤ
  vertices : List Point3
  faces : List (ℕ × ℕ × ℕ)
deriving DecidableEq, Repr

/-- Observable outcome of one `saveVDBVolume` service call: the file
writes in order, the mesh whose data was serialized to the mesh file, the
at-most-one published message, and the boolean service return value. -/
structure SaveResult where
  fileWrites : List FileWrite
  meshWritten : Mesh
  published : Option MeshGeometryStamped
  ret : Bool
deriving DecidableEq, Repr

namespace VDBVolumeNode

/-- `VDBVolumeNode::saveVDBVolume(path, response)`: writes the grid file
`path + "_grid.vdb"`, extracts the mesh, builds the mesh message from the
full vertex and triangle data, writes the mesh file `path + "_mesh.ply"`
(the boolean result of `igl::write_triangle_mesh`, here the parameter
`meshWriteOk`, is discarded by the source), publishes the message exactly
when the mesh has at least one vertex (setting `uuid = "uuid"`,
`frame_id = "map"`, stamp from `ros::Time::now()`, here `now`), and
returns `true`; `response` is never written. A throwing openvdb write
would escape the function rather than produce a return value and is not
modelled. -/
def saveVDBVolume {V : Type} (ext : Externals V) (cfg : Config) (vol : V)
    (path : String) (meshWriteOk : Bool) (now : ℤ) : SaveResult :=
  let volume_name := path
  let gridWrite : FileWrite :=
    { name := volume_name ++ "_grid.vdb", kind := FileKind.grid }
  let mesh := ext.extractTriangleMesh vol cfg.fill_holes cfg.min_weight
  let mesh_msg : MeshGeometryStamped :=
    { uuid := "", frame_id := "", stamp := 0,
      vertices := mesh.vertices, faces := mesh.triangles }
  let meshWrite : FileWrite :=
    { name := volume_name ++ "_mesh.ply", kind := FileKind.meshFile }
  let published : Option MeshGeometryStamped :=
    if mesh.vertices.length > 0 then
      some { mesh_msg with uuid := "uuid", frame_id := "map", stamp := now }
    else none
  { fileWrites := [gridWrite, meshWrite],
    meshWritten := mesh,
    published := published,
    ret := true }

end VDBVolumeNode

/-- The node's mutable state: configuration (fixed after the
constructor), the volume, and whether the periodic save timer was armed
(`serviceTimer` created). -/
structure NodeState (V : Type) where
  cfg : Config
  vol : V
  timerArmed : Bool

namespace VDBVolumeNode

/-- `VDBVolumeNode::InitVDBVolume()`: constructs the volume from the
three volume parameters. -/
def InitVDBVolume {V : Type} (ext : Externals V) (cfg : Config) : V :=
  ext.initVolume cfg.voxel_size cfg.sdf_trunc cfg.space_carving

/-- The `VDBVolumeNode` constructor: initializes the volume and arms the
recurring save timer exactly when `save_publish_wait_time > 0`; otherwise
only the on-demand service is available. -/
def construct {V : Type} (ext : Externals V) (cfg : Config) : NodeState V :=
  { cfg := cfg,
    vol := InitVDBVolume ext cfg,
    timerArmed := decide (0 < cfg.save_publish_wait_time) }

/-- One subscriber delivery of a scan: runs `Integrate` on the node state
and records the integration call (if any). -/
def handleScan {V : Type} (ext : Externals V) (s : NodeState V)
    (pcd : PointCloud2) : NodeState V × Option (List Point3 × Point3) :=
  let r := Integrate ext s.cfg s.vol pcd
  ({ s with vol := r.vol }, r.call)

/-- One service delivery of a save request: runs `saveVDBVolume` on the
node state. The volume is only read (extraction is a pure snapshot read,
see `Externals.extractTriangleMesh`), so the state is returned
unchanged. -/
def handleSave {V : Type} (ext : Externals V) (s : NodeState V)
    (path : String) (meshWriteOk : Bool) (now : ℤ) :
    SaveResult × NodeState V :=
  (saveVDBVolume ext s.cfg s.vol path meshWriteOk now, s)

/-- `VDBVolumeNode::TimerCallback`: builds a request whose path is the
configured `save_path_` and invokes the same `saveVDBVolume` handler as
the on-demand service. -/
def TimerCallback {V : Type} (ext : Externals V) (s : NodeState V)
    (meshWriteOk : Bool) (now : ℤ) : SaveResult × NodeState V :=
  handleSave ext s s.cfg.save_path meshWriteOk now

end VDBVolumeNode

/-! ### Concrete instantiations of the external collaborators

Used to evaluate the model at concrete inputs. The volume instance is a
trace of the integration calls it has received. -/

/-- A volume that records every integration call it receives. -/
abbrev TraceVol := List (List Point3 × Point3)

/-- Trace-volume integration: record the `(scan, origin)` pair. -/
def traceIntegrate (v : TraceVol) (scan : List Point3) (origin : Point3)
    (_w : ℚ → ℚ) : TraceVol :=
  (scan, origin) :: v

/-- A mesh with no vertices. -/
def emptyMesh : Mesh := { vertices := [], triangles := [] }

/-- A mesh with one vertex and one triangle-index triple. -/
def oneVertexMesh : Mesh :=
  { vertices := [⟨0, 0, 0⟩], triangles := [(0, 1, 2)] }

/-- A concrete pose. -/
def t0 : TransformStamped :=
  { translation := ⟨1, 2, 3⟩, rotation := (0, 0, 0, 1) }

/-- Externals where no transform is ever available and extraction yields
the empty mesh. -/
def extNoPose : Externals TraceVol :=
  { lookUpTransform := fun _ _ => none
    doTransform := fun pcd _ => pcd
    norm := fun p => p.x
    initVolume := fun _ _ _ => []
    integrate := traceIntegrate
    extractTriangleMesh := fun _ _ _ => emptyMesh }

/-- Externals where the pose `t0` is always available. -/
def extPose : Externals TraceVol :=
  { extNoPose with lookUpTransform := fun _ _ => some t0 }

/-- Externals whose extraction yields a one-vertex mesh. -/
def extMesh1 : Externals TraceVol :=
  { extNoPose with extractTriangleMesh := fun _ _ _ => oneVertexMesh }

/-- A concrete configuration. -/
def cfg0 : Config :=
  { voxel_size := 1/10, sdf_trunc := 3/10, space_carving := false,
    pcl_topic := "points", preprocess := true, apply_pose := true,
    min_range := 1, max_range := 10, fill_holes := true, min_weight := 5,
    save_publish_wait_time := 5, save_path := "vol",
    timestamp_tolerance_ns := 1000 }

/-- `cfg0` with the apply-pose and preprocess switches disabled. -/
def cfgNoApplyPose : Config :=
  { cfg0 with apply_pose := false, preprocess := false }

/-- A concrete nonempty scan. -/
def pcd0 : PointCloud2 :=
  { stamp := 42, frame_id := "lidar", points := [⟨2, 0, 0⟩] }

/-- The concrete message published by `extMesh1`'s one-vertex mesh. -/
def msg0 : MeshGeometryStamped :=
  { uuid := "uuid", frame_id := "map", stamp := 7,
    vertices := [⟨0, 0, 0⟩], faces := [(0, 1, 2)] }

/-! ### Helper lemmas -/

/-- The `published` field of a save result, in closed form. -/
theorem saveVDBVolume_published_eq {V : Type} (ext : Externals V)
    (cfg : Config) (vol : V) (path : String) (meshWriteOk : Bool) (now : ℤ) :
    (VDBVolumeNode.saveVDBVolume ext cfg vol path meshWriteOk now).published
      = if (ext.extractTriangleMesh vol cfg.fill_holes cfg.min_weight).vertices.length > 0
        then some
          { uuid := "uuid", frame_id := "map", stamp := now,
            vertices := (ext.extractTriangleMesh vol cfg.fill_holes cfg.min_weight).vertices,
            faces := (ext.extractTriangleMesh vol cfg.fill_holes cfg.min_weight).triangles }
        else none :=
  rfl

/-! ### Claims -/

/-- Claim C1: a scan whose timestamp has no pose available within the
configured tolerance is dropped silently — no `vdb_volume_.Integrate`
call is made and the volume state is completely unchanged. -/
theorem integrate_no_pose_drops_scan {V : Type} (ext : Externals V)
    (cfg : Config) (vol : V) (pcd : PointCloud2)
    (h : ext.lookUpTransform pcd.stamp cfg.timestamp_tolerance_ns = none) :
    (VDBVolumeNode.Integrate ext cfg vol pcd).vol = vol
      ∧ (VDBVolumeNode.Integrate ext cfg vol pcd).call = none := by
  unfold VDBVolumeNode.Integrate
  rw [h]
  exact ⟨rfl, rfl⟩

/-- Witness for C1 at a concrete scan and externals with no pose. -/
theorem integrate_no_pose_drops_scan_witness :
    (VDBVolumeNode.Integrate extNoPose cfg0 ([] : TraceVol) pcd0).vol = []
      ∧ (VDBVolumeNode.Integrate extNoPose cfg0 ([] : TraceVol) pcd0).call
        = none :=
  integrate_no_pose_drops_scan extNoPose cfg0 [] pcd0 rfl

/-- Claim C2: the range filter keeps, in order, exactly the input points
whose norm is between `min_range` and `max_range` inclusive, and when
`min_range > max_range` the result is empty. -/
theorem preProcessCloud_keeps_exactly_in_range (norm : Point3 → ℚ)
    (points : List Point3) (min_range max_range : ℚ) :
    PreProcessCloud norm points min_range max_range
        = points.filter
            (fun p => decide (min_range ≤ norm p) && decide (norm p ≤ max_range))
      ∧ (∀ p, p ∈ PreProcessCloud norm points min_range max_range
            ↔ p ∈ points ∧ min_range ≤ norm p ∧ norm p ≤ max_range)
      ∧ (max_range < min_range →
            PreProcessCloud norm points min_range max_range = []) := by
  have hfe : PreProcessCloud norm points min_range max_range
      = points.filter
          (fun p => decide (min_range ≤ norm p) && decide (norm p ≤ max_range)) := by
    unfold PreProcessCloud
    rw [List.filter_filter]
    apply List.filter_congr
    intro p _
    by_cases h1 : min_range ≤ norm p <;> by_cases h2 : norm p ≤ max_range
    · simp [h1, h2, not_lt.mpr h1, not_lt.mpr h2]
    · simp [h1, h2, not_le.mp h2]
    · simp [h1, h2, not_le.mp h1]
    · simp [h1, h2, not_le.mp h2]
  have hmem : ∀ p, p ∈ PreProcessCloud norm points min_range max_range
      ↔ p ∈ points ∧ min_range ≤ norm p ∧ norm p ≤ max_range := by
    intro p
    rw [hfe, List.mem_filter]
    simp [and_assoc]
  refine ⟨hfe, hmem, ?_⟩
  intro hlt
  rw [List.eq_nil_iff_forall_not_mem]
  intro p hp
  rcases (hmem p).mp hp with ⟨-, hl, hr⟩
  exact absurd (hl.trans hr) (not_le.mpr hlt)

/-- Witness for C2 at a concrete point set with `min_range > max_range`:
the result is empty. -/
theorem preProcessCloud_min_above_max_witness :
    PreProcessCloud Point3.x [⟨5, 0, 0⟩, ⟨2, 0, 0⟩] 10 1 = [] :=
  (preProcessCloud_keeps_exactly_in_range Point3.x
      [⟨5, 0, 0⟩, ⟨2, 0, 0⟩] 10 1).2.2 (by norm_num)

/-- Claim C3 counterexample: with the mesh-file write failing
(`meshWriteOk = false`, the discarded `igl::write_triangle_mesh`
result), the service call still returns `true` — the failure is not
surfaced as a failure result. -/
theorem save_write_failure_not_surfaced_cex :
    (VDBVolumeNode.saveVDBVolume extNoPose cfg0 ([] : TraceVol) "out" false 0).ret
        = true
      ∧ ¬ ((VDBVolumeNode.saveVDBVolume extNoPose cfg0 ([] : TraceVol)
            "out" false 0).ret = false) := by
  have hret : (VDBVolumeNode.saveVDBVolume extNoPose cfg0 ([] : TraceVol)
      "out" false 0).ret = true := rfl
  refine ⟨hret, fun h => ?_⟩
  rw [hret] at h
  exact absurd h (by decide)

/-- Claim C3 amended: `saveVDBVolume` returns `true` unconditionally —
in particular regardless of the mesh-file write outcome, which it
discards. -/
theorem saveVDBVolume_always_returns_true {V : Type} (ext : Externals V)
    (cfg : Config) (vol : V) (path : String) (meshWriteOk : Bool) (now : ℤ) :
    (VDBVolumeNode.saveVDBVolume ext cfg vol path meshWriteOk now).ret = true :=
  rfl

/-- Claim C4 (code slip): with `apply_pose_` disabled and a pose
available, `pcd_out` stays default-constructed and therefore empty, so
the integration call receives the empty point list even though the raw
scan `pcd0` is nonempty — the raw scan's points are never converted. -/
theorem integrate_apply_pose_disabled_integrates_empty_cloud :
    (VDBVolumeNode.Integrate extPose cfgNoApplyPose ([] : TraceVol) pcd0).call
        = some ([], t0.translation)
      ∧ pcd0.points = [⟨2, 0, 0⟩] :=
  ⟨rfl, rfl⟩

/-- Claim C5: a mesh-geometry message is published exactly when the
extracted mesh has at least one vertex, and it carries the full vertex
list and triangle-index list; the `published` field is an `Option`, so
at most one message is published per export. -/
theorem save_publishes_iff_mesh_nonempty {V : Type} (ext : Externals V)
    (cfg : Config) (vol : V) (path : String) (meshWriteOk : Bool) (now : ℤ) :
    ((VDBVolumeNode.saveVDBVolume ext cfg vol path meshWriteOk now).published
        = some
          { uuid := "uuid", frame_id := "map", stamp := now,
            vertices := (ext.extractTriangleMesh vol cfg.fill_holes cfg.min_weight).vertices,
            faces := (ext.extractTriangleMesh vol cfg.fill_holes cfg.min_weight).triangles }
      ↔ (ext.extractTriangleMesh vol cfg.fill_holes cfg.min_weight).vertices ≠ [])
      ∧ ((ext.extractTriangleMesh vol cfg.fill_holes cfg.min_weight).vertices = []
        → (VDBVolumeNode.saveVDBVolume ext cfg vol path meshWriteOk now).published
          = none) := by
  rw [saveVDBVolume_published_eq]
  by_cases hl : 0 < (ext.extractTriangleMesh vol cfg.fill_holes cfg.min_weight).vertices.length
  · have hne := List.length_pos.mp hl
    rw [if_pos hl]
    exact ⟨⟨fun _ => hne, fun _ => rfl⟩, fun hnil => absurd hnil hne⟩
  · have hnil : (ext.extractTriangleMesh vol cfg.fill_holes cfg.min_weight).vertices = [] :=
      List.length_eq_zero.mp (Nat.eq_zero_of_not_pos hl)
    rw [if_neg hl]
    refine ⟨⟨fun h => absurd h (by simp), fun h => absurd hnil h⟩, fun _ => rfl⟩

/-- Witness for C5: with a one-vertex mesh, the message is published with
the full data. -/
theorem save_publishes_iff_mesh_nonempty_witness :
    (VDBVolumeNode.saveVDBVolume extMesh1 cfg0 ([] : TraceVol) "out" true 7).published
      = some
        { uuid := "uuid", frame_id := "map", stamp := 7,
          vertices := [⟨0, 0, 0⟩], faces := [(0, 1, 2)] } :=
  (save_publishes_iff_mesh_nonempty extMesh1 cfg0 [] "out" true 7).1.mpr
    (by decide)

/-- Claim C6: both artifacts are written on every export — the volume
file at `path + "_grid.vdb"` first and the mesh file at
`path + "_mesh.ply"` second — unconditionally, so in particular also when
the extracted mesh is empty; the mesh file carries the extracted mesh. -/
theorem save_writes_grid_then_mesh {V : Type} (ext : Externals V)
    (cfg : Config) (vol : V) (path : String) (meshWriteOk : Bool) (now : ℤ) :
    (VDBVolumeNode.saveVDBVolume ext cfg vol path meshWriteOk now).fileWrites
        = [{ name := path ++ "_grid.vdb", kind := FileKind.grid },
           { name := path ++ "_mesh.ply", kind := FileKind.meshFile }]
      ∧ (VDBVolumeNode.saveVDBVolume ext cfg vol path meshWriteOk now).meshWritten
        = ext.extractTriangleMesh vol cfg.fill_holes cfg.min_weight :=
  ⟨rfl, rfl⟩

/-- Claim C7: the periodic save timer is armed at construction exactly
when the configured wait interval is strictly positive; neither scan
handling nor save handling changes that decision; and the timer callback
invokes the very same save handler with the configured default save
path. -/
theorem timer_armed_iff_positive_wait {V : Type} (ext : Externals V)
    (cfg : Config) (s : NodeState V) (pcd : PointCloud2) (path : String)
    (ok1 ok2 : Bool) (now1 now2 : ℤ) :
    ((VDBVolumeNode.construct ext cfg).timerArmed = true
        ↔ 0 < cfg.save_publish_wait_time)
      ∧ (VDBVolumeNode.handleScan ext s pcd).1.timerArmed = s.timerArmed
      ∧ (VDBVolumeNode.handleSave ext s path ok1 now1).2.timerArmed = s.timerArmed
      ∧ VDBVolumeNode.TimerCallback ext s ok2 now2
        = VDBVolumeNode.handleSave ext s s.cfg.save_path ok2 now2 := by
  refine ⟨?_, rfl, rfl, rfl⟩
  simp [VDBVolumeNode.construct]

/-- Witness for C7 at `cfg0` (wait interval 5 > 0): the timer is armed. -/
theorem timer_armed_iff_positive_wait_witness :
    (VDBVolumeNode.construct extNoPose cfg0).timerArmed = true :=
  (timer_armed_iff_positive_wait extNoPose cfg0
      (VDBVolumeNode.construct extNoPose cfg0) pcd0 "out" true true 0 0).1.mpr
    (by norm_num [cfg0])

/-- Claim C8: an export does not mutate the node state, so two exports in
immediate succession with no intervening ingestion serialize structurally
identical meshes. -/
theorem export_twice_same_mesh {V : Type} (ext : Externals V)
    (s : NodeState V) (path : String) (ok1 ok2 : Bool) (now1 now2 : ℤ) :
    (VDBVolumeNode.handleSave ext s path ok1 now1).2 = s
      ∧ (VDBVolumeNode.handleSave ext
            (VDBVolumeNode.handleSave ext s path ok1 now1).2
            path ok2 now2).1.meshWritten
        = (VDBVolumeNode.handleSave ext s path ok1 now1).1.meshWritten :=
  ⟨rfl, rfl⟩

/-- Claim C10: every published mesh-geometry message has identifier
`"uuid"` and frame label `"map"`, whatever the configuration, volume,
destination path and inputs. -/
theorem published_mesh_constant_uuid_and_frame {V : Type} (ext : Externals V)
    (cfg : Config) (vol : V) (path : String) (meshWriteOk : Bool) (now : ℤ)
    (msg : MeshGeometryStamped)
    (h : (VDBVolumeNode.saveVDBVolume ext cfg vol path meshWriteOk now).published
        = some msg) :
    msg.uuid = "uuid" ∧ msg.frame_id = "map" := by
  rw [saveVDBVolume_published_eq] at h
  by_cases hl : 0 < (ext.extractTriangleMesh vol cfg.fill_holes cfg.min_weight).vertices.length
  · rw [if_pos hl] at h
    injection h with h
    subst h
    exact ⟨rfl, rfl⟩
  · rw [if_neg hl] at h
    exact Option.noConfusion h

/-- Witness for C10: the concrete published message `msg0`. -/
theorem published_mesh_constant_uuid_and_frame_witness :
    msg0.uuid = "uuid" ∧ msg0.frame_id = "map" :=
  published_mesh_constant_uuid_and_frame extMesh1 cfg0 [] "out" true 7 msg0 rfl

end VdbfusionRos
